import Mathlib

/-!
Verification of the image-generation pipeline of the gpt-browser repository.

The development shallowly embeds, in Lean, the pieces of the TypeScript
source that the specification talks about:

* `src/app/utils/image-cache.ts` — cache key derivation
  (`generateCacheKey`, `generateMetadataKey`) and cache lookup
  (`getCachedImage`);
* `src/app/utils/image-providers.ts` — the `GPTImage1Provider` streaming
  generators (two revisions are present in the sources, embedded here as
  `generateStreamV1` and `generateStreamV2`), the provider registry
  (`ImageProviderFactory.getProvider`) and the `SmartImageProvider`
  fallback chain;
* `src/app/utils/describe-html.ts` — `generateImagePromptFromHTML`;
* `src/app/api/generate-image-dual/route.ts` — the streaming `POST`
  orchestrator, embedded as a pure interpreter `routeTrace` over an
  environment recording the outcomes of all external calls.

JavaScript strings are modeled by `String` except in the cache-key module,
where `List Char` is used so that key collisions can be reasoned about
positionally.  Asynchronous collaborator calls are modeled by `Except` /
`Option`-valued environment fields.  The `uint8Array` field of generation
results is omitted: it is `atob` applied to the `base64` field, hence
determined by it.
-/

namespace GptBrowser

/-! ## Cache keys (src/app/utils/image-cache.ts, lines 22-58)

`generateCacheKey(url, provider)` builds
`image-cache/${encodedUrl}${providerSegment}_${hash}.png` where
`encodedUrl` is `encodeURIComponent(url)` with regex-special characters
replaced by `_` and truncated to 100 characters, `providerSegment` is
`_` followed by the provider name with characters outside `[a-zA-Z0-9-]`
replaced by `_` (empty when no provider is given), and `hash` is the first
16 hex characters of the SHA-256 of `cacheInput` — the url, or
`` `${url}_${provider}` `` when a provider is given.  The digest
(sha256-hex truncated to 16 characters) is an abstract parameter `digest`
of the embedding. -/

/-- Characters that `encodeURIComponent` leaves unescaped
(letters, digits, and `- _ . ! ~ * ' ( )`). -/
def uriUnreserved (c : Char) : Bool :=
  c.isAlpha || c.isDigit ||
  c = '-' || c = '_' || c = '.' || c = '!' || c = '~' || c = '*' ||
  c = Char.ofNat 39 || c = '(' || c = ')'

/-- Upper-case hex digit of a value below 16. -/
def hexDigit (n : Nat) : Char :=
  if n < 10 then Char.ofNat (48 + n) else Char.ofNat (55 + n)

/-- UTF-8 bytes of a character (as used by `encodeURIComponent`). -/
def utf8Bytes (c : Char) : List Nat :=
  let n := c.toNat
  if n < 128 then [n]
  else if n < 2048 then [192 + n / 64, 128 + n % 64]
  else if n < 65536 then [224 + n / 4096, 128 + (n / 64) % 64, 128 + n % 64]
  else [240 + n / 262144, 128 + (n / 4096) % 64, 128 + (n / 64) % 64, 128 + n % 64]

/-- Percent-encoding of one byte: `%XX`. -/
def percentByte (b : Nat) : List Char :=
  ['%', hexDigit (b / 16), hexDigit (b % 16)]

/-- `encodeURIComponent`, on strings as character lists. -/
def encodeURIComponent (s : List Char) : List Char :=
  s.flatMap fun c =>
    if uriUnreserved c then [c] else (utf8Bytes c).flatMap percentByte

/-- The characters the source replaces by `_`
(the regex class of special characters: dot, star, plus, question mark,
caret, dollar, braces, parentheses, pipe, square brackets, backslash). -/
def regexSpecial (c : Char) : Bool :=
  c = '.' || c = '*' || c = '+' || c = '?' || c = '^' || c = '$' ||
  c = Char.ofNat 123 || c = Char.ofNat 125 || c = '(' || c = ')' ||
  c = '|' || c = '[' || c = ']' || c = Char.ofNat 92

/-- `encodeURIComponent(url).replace(/[.*+?^${}()|[\]\\]/g, '_').substring(0, 100)`. -/
def encodedUrl (url : List Char) : List Char :=
  ((encodeURIComponent url).map fun c => if regexSpecial c then '_' else c).take 100

/-- Characters the provider-name sanitizer keeps (`[a-zA-Z0-9-]`). -/
def providerSafeChar (c : Char) : Bool :=
  c.isAlpha || c.isDigit || c = '-'

/-- `provider ? `_${provider.replace(/[^a-zA-Z0-9-]/g, '_')}` : ''`. -/
def providerSegment : Option (List Char) → List Char
  | none => []
  | some p => '_' :: p.map fun c => if providerSafeChar c then c else '_'

/-- `const cacheInput = provider ? `${url}_${provider}` : url`. -/
def cacheInput (url : List Char) : Option (List Char) → List Char
  | none => url
  | some p => url ++ '_' :: p

/-- `generateCacheKey` (image-cache.ts line 22).  `digest` abstracts
`crypto.createHash('sha256').update(·).digest('hex').substring(0, 16)`. -/
def generateCacheKey (digest : List Char → List Char)
    (url : List Char) (prov : Option (List Char)) : List Char :=
  "image-cache/".data ++ encodedUrl url ++ providerSegment prov ++
    ('_' :: digest (cacheInput url prov)) ++ ".png".data

/-- `generateMetadataKey` (image-cache.ts line 43). -/
def generateMetadataKey (digest : List Char → List Char)
    (url : List Char) (prov : Option (List Char)) : List Char :=
  "image-metadata/".data ++ encodedUrl url ++ providerSegment prov ++
    ('_' :: digest (cacheInput url prov)) ++ ".json".data

/-- A digest stand-in used by concrete counterexamples: truncate/pad to
16 characters.  On the short inputs of the counterexample it is
collision-free, and its output length is always 16, as required of the
truncated sha256 hex digest it stands for. -/
def padDigest (s : List Char) : List Char :=
  s.take 16 ++ List.replicate (16 - s.length) 'a'

/-! ## Cache lookup (src/app/utils/image-cache.ts, lines 63-117)

`getCachedImage` runs two `checkBlobExists` head calls (a throwing `head`
means "absent"), then two more `head` calls for the blob URLs, then two
`fetch`es whose `.ok` flags are checked, then reads the image body
(`arrayBuffer`, converted to base64) and parses the metadata JSON.
The whole body is wrapped in `try { .. } catch { return null }`, so every
throwing step is modeled by an `Except.error` branch yielding `none`.
A `fetch` `Response` is modeled by its `ok` flag; the body-reading calls
are separate environment fields. -/

/-- The metadata sidecar object (`CacheMetadata`). -/
structure CacheMetadata where
  originalUrl : String
  timestamp : Nat
  revisedPrompt : Option String
  mediaType : String
deriving DecidableEq

/-- The value returned on a cache hit (`CachedImageResult`). -/
structure CachedImageResult where
  base64 : String
  mediaType : String
  revisedPrompt : Option String
  blobUrl : Option String
  cached : Bool
deriving DecidableEq

/-- Result of a `head` call: the blob description (just its URL here). -/
structure BlobHead where
  url : String
deriving DecidableEq

/-- Outcomes of every external call `getCachedImage` makes, in program
order.  `Except.error ()` models the call throwing. -/
structure CacheLookupEnv where
  headImage1 : Except Unit BlobHead
  headMeta1 : Except Unit BlobHead
  headImage2 : Except Unit BlobHead
  headMeta2 : Except Unit BlobHead
  fetchImageOk : Except Unit Bool
  fetchMetaOk : Except Unit Bool
  imageBody : Except Unit String
  metaJson : Except Unit CacheMetadata

/-- `checkBlobExists` (image-cache.ts line 178): `head` succeeding means
the blob exists; a throw means it does not. -/
def existsOf : Except Unit BlobHead → Bool
  | .ok _ => true
  | .error _ => false

/-- `getCachedImage` (image-cache.ts line 63).  Every `.error` branch is
the `catch` (or a guard) returning `null`. -/
def getCachedImage (env : CacheLookupEnv) : Option CachedImageResult :=
  if !(existsOf env.headImage1) || !(existsOf env.headMeta1) then none
  else
    match env.headImage2 with
    | .error _ => none
    | .ok ih =>
      match env.headMeta2 with
      | .error _ => none
      | .ok _ =>
        match env.fetchImageOk, env.fetchMetaOk with
        | .ok iok, .ok mok =>
          if !iok || !mok then none
          else
            match env.imageBody with
            | .error _ => none
            | .ok b64 =>
              match env.metaJson with
              | .error _ => none
              | .ok md => some ⟨b64, md.mediaType, md.revisedPrompt, some ih.url, true⟩
        | _, _ => none

/-! ## Description generation (src/app/utils/describe-html.ts, lines 890-957)

`generateImagePromptFromHTML` calls the chat-completion model; the text is
`response.choices[0]?.message?.content || ""`.  If the call throws, or the
text is falsy or trims to the empty string, a fixed fallback prompt is
returned; otherwise the trimmed text.  The model-call outcome is the
`Except`-valued argument (the `ok` payload is the text after `|| ""`). -/

/-- The fixed fallback description (describe-html.ts lines 947 and 955). -/
def fallbackPrompt : String :=
  "A website design with a modern layout featuring a header navigation bar at the top, a main content area with text and sections, and a footer at the bottom. The page has a clean, professional appearance with structured content, headings, paragraphs, and standard web elements arranged in a typical website layout."

/-- `generateImagePromptFromHTML` (describe-html.ts line 890), as a
function of the model-call outcome.  The source checks
`!text || text.trim().length === 0`; `!text` is the empty string being
falsy, and a zero-length trim is the trim being empty. -/
def generateImagePromptFromHTML (modelResult : Except String String) : String :=
  match modelResult with
  | .error _ => fallbackPrompt
  | .ok text => if text = "" ∨ text.trim = "" then fallbackPrompt else text.trim

/-! ## Image providers (src/app/utils/image-providers.ts)

Two revisions of `GPTImage1Provider.generateStream` are present in the
sources; both consume the async stream returned by the OpenAI images API.
The upstream stream is modeled by a list of `OAIEvent`s (field names of
the source events, camel-cased); the generator's observable behaviour is
the pair of the list of yielded `ImageGenerationResult`s and an optional
terminal error message (the generator throwing after those yields;
`none` means it returned normally).  `fetch(url)`-and-convert-to-base64
for URL-shaped image payloads is an environment function returning the
base64 (or throwing).  JavaScript truthiness of an optional string field
(absent or empty means falsy) is `truthyS`. -/

/-- A provider result (`ImageGenerationResult`).  The source's optional
`isPartial?: boolean` is only ever consulted for truthiness, so an absent
flag is modeled as `false`; `uint8Array` is omitted (it is `atob` of
`base64`). -/
structure ImageGenerationResult where
  base64 : String
  mediaType : String
  revisedPrompt : Option String
  isPartial : Bool
  partialIndex : Option Nat
deriving DecidableEq

/-- The `data` payload carried by some stream events. -/
structure ImgData where
  b64Json : Option String
  url : Option String
  revisedPrompt : Option String
deriving DecidableEq

/-- An event of the upstream OpenAI image stream, with the fields the two
`generateStream` revisions read. -/
structure OAIEvent where
  type : String
  b64Json : Option String
  url : Option String
  partialImageIndex : Option Nat
  revisedPrompt : Option String
  data : Option ImgData
deriving DecidableEq

/-- JavaScript truthiness of an optional string (absent and `""` are
falsy). -/
def truthyS : Option String → Bool
  | none => false
  | some s => !s.isEmpty

/-- `(event as any).data || event` — the event itself read as image data
when no `data` payload is present. -/
def OAIEvent.asData (e : OAIEvent) : ImgData :=
  match e.data with
  | some d => d
  | none => ⟨e.b64Json, e.url, e.revisedPrompt⟩

/-- The catch wrapper of both `generateStream` revisions:
`` `GPT-Image-1 streaming failed: ${message}` ``. -/
def wrapStreamErr (msg : String) : String :=
  "GPT-Image-1 streaming failed: " ++ msg

/-- Loop body of the first revision of `generateStream`
(image-providers.ts lines 176-359).  The accumulator is
`lastPartialImage`.  On an `image_generation.completed` event the
generator returns without consuming the rest of the stream; with no image
data in that event, the last partial is re-yielded with `isPartial`
overridden to `false` (the promotion). -/
def genV1Go (fetchImg : String → Except String String) :
    List OAIEvent → Option ImageGenerationResult →
    List ImageGenerationResult × Option String
  | [], _ => ([], none)
  | e :: rest, lastPartialImage =>
    if e.type = "image_generation.partial_image" then
      if truthyS e.b64Json then
        let item : ImageGenerationResult :=
          ⟨e.b64Json.getD "", "image/png", none, true, e.partialImageIndex⟩
        let r := genV1Go fetchImg rest (some item)
        (item :: r.1, r.2)
      else genV1Go fetchImg rest lastPartialImage
    else if e.type = "image_generation.image" then
      let d := e.asData
      if truthyS d.b64Json then
        let item : ImageGenerationResult :=
          ⟨d.b64Json.getD "", "image/png", d.revisedPrompt, false, none⟩
        let r := genV1Go fetchImg rest lastPartialImage
        (item :: r.1, r.2)
      else if truthyS d.url then
        match fetchImg (d.url.getD "") with
        | .error m => ([], some (wrapStreamErr m))
        | .ok b =>
          let item : ImageGenerationResult := ⟨b, "image/png", d.revisedPrompt, false, none⟩
          let r := genV1Go fetchImg rest lastPartialImage
          (item :: r.1, r.2)
      else genV1Go fetchImg rest lastPartialImage
    else if e.type = "image_generation.completed" then
      let d := e.asData
      if truthyS d.b64Json || truthyS d.url then
        if truthyS d.b64Json then
          ([⟨d.b64Json.getD "", "image/png", d.revisedPrompt, false, none⟩], none)
        else
          match fetchImg (d.url.getD "") with
          | .error m => ([], some (wrapStreamErr m))
          | .ok b => ([⟨b, "image/png", d.revisedPrompt, false, none⟩], none)
      else
        match lastPartialImage with
        | some lp => ([⟨lp.base64, lp.mediaType, lp.revisedPrompt, false, lp.partialIndex⟩], none)
        | none => ([], none)
    else genV1Go fetchImg rest lastPartialImage

/-- First revision of `GPTImage1Provider.generateStream`. -/
def generateStreamV1 (fetchImg : String → Except String String)
    (events : List OAIEvent) : List ImageGenerationResult × Option String :=
  genV1Go fetchImg events none

/-- Loop body of the second revision of `generateStream`
(image-providers.ts lines 619-750).  The flag is `finalImageSent`; when
the stream ends without a final image the generator throws
`"Stream ended without receiving final image"`, which the catch wraps. -/
def genV2Go : List OAIEvent → Bool → List ImageGenerationResult × Option String
  | [], finalSent =>
    if finalSent then ([], none)
    else ([], some (wrapStreamErr "Stream ended without receiving final image"))
  | e :: rest, finalSent =>
    if e.type = "image_generation.partial_image" then
      if truthyS e.b64Json then
        let item : ImageGenerationResult :=
          ⟨e.b64Json.getD "", "image/png", none, true, e.partialImageIndex⟩
        let r := genV2Go rest finalSent
        (item :: r.1, r.2)
      else genV2Go rest finalSent
    else if e.type = "image_generation.completed" || truthyS e.b64Json then
      if truthyS e.b64Json then
        let item : ImageGenerationResult :=
          ⟨e.b64Json.getD "", "image/png", e.revisedPrompt, false, none⟩
        let r := genV2Go rest true
        (item :: r.1, r.2)
      else genV2Go rest finalSent
    else genV2Go rest finalSent

/-- Second revision of `GPTImage1Provider.generateStream`. -/
def generateStreamV2 (events : List OAIEvent) :
    List ImageGenerationResult × Option String :=
  genV2Go events false

/-! ## Provider registry and fallback chain
(src/app/utils/image-providers.ts, `ImageProviderFactory` and
`SmartImageProvider`)

Every `ImageProvider` instance in play is the registry singleton for its
model name (`ImageProviderFactory.providers` holds one entry per name and
both the fallback chain and the preference resolve through
`getProvider`), so object identity coincides with name equality and
providers are modeled by their names.  A provider's `generate` outcome is
an environment function from its name. -/

/-- The artifact part of a `generate` result. -/
structure ImagePayload where
  base64 : String
  mediaType : String
  revisedPrompt : Option String
deriving DecidableEq

/-- `ImageProviderFactory.getProvider` (image-providers.ts line 367): the
registry maps `"gpt-image-1"` to the single provider; an unknown name
throws. -/
def getProviderName (modelName : String) : Except String String :=
  if modelName = "gpt-image-1" then .ok "gpt-image-1"
  else .error ("Unknown image model: " ++ modelName)

/-- The provider-list reordering of `SmartImageProvider.generate`
(image-providers.ts lines 408-415): with a `preferredModel` the resolved
provider is placed at the front and filtered out of the chain;
the resolution throwing propagates. -/
def reorderProviders (chain : List String) :
    Option String → Except String (List String)
  | none => .ok chain
  | some m =>
    match getProviderName m with
    | .error e => .error e
    | .ok p => .ok (p :: chain.filter (fun q => q ≠ p))

/-- The provider loop of `SmartImageProvider.generate` (image-providers.ts
lines 417-436), also returning the list of attempted provider names (the
`Attempting image generation with ...` log).  `lastError` is the threaded
last failure; with every provider failed, the loop falls through to
`throw lastError || new Error("All image providers failed")`. -/
def tryProviders (gen : String → Except String ImagePayload) :
    List String → Option String →
    List String × Except String (ImagePayload × String)
  | [], lastError =>
    ([], .error (match lastError with
      | some e => e
      | none => "All image providers failed"))
  | p :: rest, _lastError =>
    match gen p with
    | .ok r => ([p], .ok (r, p))
    | .error e =>
      let t := tryProviders gen rest (some e)
      (p :: t.1, t.2)

/-- `SmartImageProvider.generate` (image-providers.ts lines 404-437):
reorder per the preference, then try providers in order. -/
def smartGenerate (gen : String → Except String ImagePayload)
    (chain : List String) (preferredModel : Option String) :
    List String × Except String (ImagePayload × String) :=
  match reorderProviders chain preferredModel with
  | .error e => ([], .error e)
  | .ok providers => tryProviders gen providers none

/-- The error text of a failed `generate` outcome (`""` on success; only
used under a failure hypothesis). -/
def errOf : Except String ImagePayload → String
  | .error e => e
  | .ok _ => ""

/-- Whether a `generate` outcome succeeded. -/
def genOk : Except String ImagePayload → Bool
  | .ok _ => true
  | .error _ => false

/-! ## The streaming orchestrator
(src/app/api/generate-image-dual/route.ts, `POST`, lines 224-536)

The `start` callback of the response stream is embedded as a pure
interpreter over an environment recording the outcome of every external
call.  `cancel n` is the value of the `cancelled` flag at the n-th point
where the code consults it:

* check 0 — line 249, before any event;
* check 1 — line 263, the `cachedResult && !cancelled` hit guard (the
  flag is only read when there is a cache hit; on a cancelled hit the
  code falls through to the miss path);
* check 2 — line 298, after `validateURL`;
* check 3 — line 353, after `fetchHTML`;
* check 4 — line 383, after `generateImagePromptFromHTML`;
* check 5+k — line 428, before handling the k-th streamed item.

The trace records both emitted SSE events (`Act.ev`) and collaborator
invocations (`Act.call...`), each tagged with whether the `cancelled`
flag had already been read as true at that moment (only the hit-guard
fallthrough can set the tag).  Static `message` strings of the events are
not modeled; dynamic payloads (artifacts, flags, error texts) are. -/

/-- The result of the `validateURL` collaborator as the route reads it
(`isValid`, `category`, `reason`). -/
structure ValidationResult where
  isValid : Bool
  category : String
  reason : Option String
deriving DecidableEq

/-- An SSE event of the route (`step` tag plus the dynamic payload). -/
inductive Step where
  | checkingCache
  | completed (image : Option ImagePayload) (cached : Bool)
  | validating
  | validated (warning : Bool)
  | fetching
  | fetched
  | describing
  | described
  | generating
  | partialImage (idx : Option Nat) (image : ImagePayload)
  | error (msg : String)
  | done
deriving DecidableEq

/-- A step of the observable trace: an emitted event or an external
call. -/
inductive Act where
  | ev (e : Step)
  | callCache
  | callValidate
  | callFetch
  | callDescribe (html : String)
  | callProviderStream (prompt : String)
  | callCacheStore (image : ImagePayload)
deriving DecidableEq

/-- Outcomes of the route's external calls.  `streamItems` are the items
the provider generator yields; `streamErr` is the error that terminates
it afterwards (`none` for a normal end). -/
structure RouteEnv where
  cancel : Nat → Bool
  cached : Option CachedImageResult
  validation : Except String ValidationResult
  fetchRes : Except String String
  describeModel : Except String String
  streamItems : List ImageGenerationResult
  streamErr : Option String

/-- `${validation.reason}` — an absent reason renders as "undefined". -/
def reasonStr : Option String → String
  | some r => r
  | none => "undefined"

/-- The artifact payload of a cache hit. -/
def CachedImageResult.payload (c : CachedImageResult) : ImagePayload :=
  ⟨c.base64, c.mediaType, c.revisedPrompt⟩

/-- The artifact payload of a streamed item. -/
def ImageGenerationResult.payload (r : ImageGenerationResult) : ImagePayload :=
  ⟨r.base64, r.mediaType, r.revisedPrompt⟩

/-- The prompt the route hands to `generateStream` (route.ts line 414). -/
def describePrompt (imagePrompt : String) : String :=
  "Always generate the header and footer, and start at the top of the website described as follows: " ++ imagePrompt

/-- The `for await` loop over the stream (route.ts lines 426-496).
`i` numbers the cancellation check of the current iteration, `obs` tags
emissions with the prior observation state, `finalSent` is
`finalImageSent`.  After the loop: a generator error reaches the catch
(one `error` event); a normal end emits the artifact-less `completed`
fallback when no final item was sent, then the `[DONE]` sentinel. -/
def streamLoop (env : RouteEnv) :
    Nat → Bool → Bool → List ImageGenerationResult → List (Act × Bool)
  | _, obs, finalSent, [] =>
    match env.streamErr with
    | some msg => [(Act.ev (Step.error msg), obs)]
    | none =>
      (if finalSent then [] else [(Act.ev (Step.completed none false), obs)]) ++
        [(Act.ev Step.done, obs)]
  | i, obs, finalSent, item :: rest =>
    if env.cancel i then []
    else if item.isPartial then
      (Act.ev (Step.partialImage item.partialIndex item.payload), obs) ::
        streamLoop env (i + 1) obs finalSent rest
    else
      (Act.callCacheStore item.payload, obs) ::
        (Act.ev (Step.completed (some item.payload) false), obs) ::
        streamLoop env (i + 1) obs true rest

/-- The pipeline below the cache check (route.ts lines 283-496), shared
by the miss path and the cancelled-hit fallthrough (`obs` tags whether
cancellation had been observed at the hit guard). -/
def missPath (env : RouteEnv) (obs : Bool) : List (Act × Bool) :=
  (Act.ev Step.validating, obs) :: (Act.callValidate, obs) ::
    match env.validation with
    | .error msg => [(Act.ev (Step.error msg), obs)]
    | .ok v =>
      if env.cancel 2 then []
      else if !v.isValid then
        [(Act.ev (Step.error ("URL validation failed: " ++ reasonStr v.reason)), obs)]
      else
        (Act.ev (Step.validated (v.category = "potentially_unsafe")), obs) ::
          (Act.ev Step.fetching, obs) :: (Act.callFetch, obs) ::
          match env.fetchRes with
          | .error msg => [(Act.ev (Step.error msg), obs)]
          | .ok html =>
            if env.cancel 3 then []
            else
              (Act.ev Step.fetched, obs) :: (Act.ev Step.describing, obs) ::
                (Act.callDescribe html, obs) ::
                if env.cancel 4 then []
                else
                  (Act.ev Step.described, obs) :: (Act.ev Step.generating, obs) ::
                    (Act.callProviderStream
                      (describePrompt (generateImagePromptFromHTML env.describeModel)), obs) ::
                    streamLoop env 5 obs false env.streamItems

/-- The full `start` callback (route.ts lines 246-509), with each trace
element tagged by whether cancellation had been observed before it. -/
def routeTrace (env : RouteEnv) : List (Act × Bool) :=
  if env.cancel 0 then []
  else
    (Act.ev Step.checkingCache, false) :: (Act.callCache, false) ::
      match env.cached with
      | some c =>
        if env.cancel 1 then missPath env true
        else [(Act.ev (Step.completed (some c.payload) true), false),
              (Act.ev Step.done, false)]
      | none => missPath env false

/-- The emitted trace of `POST`, without the observation tags. -/
def routePOST (env : RouteEnv) : List Act :=
  (routeTrace env).map Prod.fst

/-- Whether an action is an `error` event. -/
def isErrorEv : Act → Bool
  | .ev (.error _) => true
  | _ => false

/-- Whether an action is the provider-stream invocation. -/
def isCallProvider : Act → Bool
  | .callProviderStream _ => true
  | _ => false

/-- Whether a trace contains an `error` event. -/
def hasError (l : List Act) : Bool :=
  l.any isErrorEv

/-- Whether an `error` event occurs before the provider invocation (or at
all, when the provider is never invoked). -/
def errorBeforeProvider (l : List Act) : Bool :=
  hasError (l.takeWhile (fun a => !isCallProvider a))
/-! ## Concrete sample data

Concrete artifacts and environments instantiating the theorems below at
explicit inputs. -/

/-- A stored cache entry as `getCachedImage` would return it. -/
def sampleCached : CachedImageResult :=
  ⟨"cachedimagedata", "image/png", some "revised", some "blob-url", true⟩

/-- A validator verdict accepting the target as safe. -/
def okValidation : ValidationResult := ⟨true, "safe", none⟩

/-- A first partial artifact (index 0). -/
def partialItem0 : ImageGenerationResult := ⟨"partzero", "image/png", none, true, some 0⟩

/-- A second partial artifact (index 1). -/
def partialItem1 : ImageGenerationResult := ⟨"partone", "image/png", none, true, some 1⟩

/-- A final (non-partial) artifact. -/
def finalItem : ImageGenerationResult := ⟨"finaldata", "image/png", some "rp", false, none⟩

/-- A run with a cache hit and no cancellation. -/
def envHit : RouteEnv :=
  ⟨fun _ => false, some sampleCached, .ok okValidation, .ok "<html></html>",
   .ok "a description", [finalItem], none⟩

/-- A cache-miss run whose describe model returns the empty string. -/
def envEmptyDescribe : RouteEnv :=
  ⟨fun _ => false, none, .ok okValidation, .ok "<html></html>", .ok "",
   [finalItem], none⟩

/-- A cache-miss run whose provider stream yields two partials and then
ends without a final item. -/
def envPartialsOnly : RouteEnv :=
  ⟨fun _ => false, none, .ok okValidation, .ok "<html></html>",
   .ok "a description", [partialItem0, partialItem1], none⟩

/-- A run with a cache hit where the client cancels between the first and
second cancellation checks (the flag is monotone: false at check 0, true
from check 1 on). -/
def envCancelledHit : RouteEnv :=
  ⟨fun n => decide (1 ≤ n), some sampleCached, .ok okValidation,
   .ok "<html></html>", .ok "a description", [], none⟩

/-- A cache lookup where every external call succeeds. -/
def lookupEnvAllOk : CacheLookupEnv :=
  ⟨.ok ⟨"img-url"⟩, .ok ⟨"meta-url"⟩, .ok ⟨"img-url"⟩, .ok ⟨"meta-url"⟩,
   .ok true, .ok true, .ok "imgbody64", .ok ⟨"some-site", 0, some "rp", "image/png"⟩⟩

/-- A generator environment where provider `alpha` fails and every other
provider succeeds. -/
def genW : String → Except String ImagePayload :=
  fun n => if n = "alpha" then .error "alpha failed" else .ok ⟨"img", "image/png", none⟩

/-- A generator environment where every provider fails. -/
def genFail : String → Except String ImagePayload :=
  fun _ => .error "down"

/-- An upstream partial-image event carrying index `i` and data `b`. -/
def mkPartialEv (i : Nat) (b : String) : OAIEvent :=
  ⟨"image_generation.partial_image", some b, none, some i, none, none⟩

/-- An upstream completion event carrying no image data. -/
def completedNoData : OAIEvent :=
  ⟨"image_generation.completed", none, none, none, none, none⟩

/-- The partial item `generateStream` yields for `mkPartialEv i b`. -/
def partialItemOf (q : Nat × String) : ImageGenerationResult :=
  ⟨q.2, "image/png", none, true, some q.1⟩

/-- The same item promoted to final (`isPartial` overridden). -/
def promotedItemOf (q : Nat × String) : ImageGenerationResult :=
  ⟨q.2, "image/png", none, false, some q.1⟩
/-! ## Theorems -/

theorem padDigest_length (s : List Char) : (padDigest s).length = 16 := by
  simp only [padDigest, List.length_append, List.length_take, List.length_replicate]
  omega

/-- Splitting at a separator that occurs in neither left part is unique. -/
theorem firstSepSplit (a : List Char) : ∀ (b x y : List Char),
    '_' ∉ a → '_' ∉ b → a ++ '_' :: x = b ++ '_' :: y → a = b ∧ x = y := by
  induction a with
  | nil =>
    intro b x y _ hb h
    cases b with
    | nil => simpa using h
    | cons d b2 =>
      simp only [List.nil_append, List.cons_append, List.cons.injEq] at h
      exact absurd (h.1 ▸ List.mem_cons_self d b2) hb
  | cons c a2 ih =>
    intro b x y ha hb h
    cases b with
    | nil =>
      simp only [List.cons_append, List.nil_append, List.cons.injEq] at h
      exact absurd (h.1 ▸ List.mem_cons_self c a2) ha
    | cons d b2 =>
      simp only [List.cons_append, List.cons.injEq] at h
      have h2 := ih b2 x y (fun m => ha (List.mem_cons_of_mem c m))
        (fun m => hb (List.mem_cons_of_mem d m)) h.2
      exact ⟨by rw [h.1, h2.1], h2.2⟩

/-- Splitting at the last separator: if neither right part contains the
separator, the decomposition is unique. -/
theorem lastSepSplit {t1 t2 p1 p2 : List Char}
    (hp1 : '_' ∉ p1) (hp2 : '_' ∉ p2)
    (h : t1 ++ '_' :: p1 = t2 ++ '_' :: p2) : t1 = t2 ∧ p1 = p2 := by
  have hrev := congrArg List.reverse h
  simp only [List.reverse_append, List.reverse_cons] at hrev
  have hrev2 : p1.reverse ++ '_' :: t1.reverse = p2.reverse ++ '_' :: t2.reverse := by
    simpa [List.append_assoc] using hrev
  have hsplit := firstSepSplit p1.reverse p2.reverse t1.reverse t2.reverse
    (by simpa using hp1) (by simpa using hp2) hrev2
  constructor
  · have := congrArg List.reverse hsplit.2
    simpa using this
  · have := congrArg List.reverse hsplit.1
    simpa using this

/-- Common shape of the two key builders: key equality forces digest
equality when digest outputs have equal length. -/
theorem keyHashEq {pre ext enc1 enc2 seg1 seg2 d1 d2 : List Char}
    (hd : d1.length = d2.length)
    (h : pre ++ enc1 ++ seg1 ++ ('_' :: d1) ++ ext =
         pre ++ enc2 ++ seg2 ++ ('_' :: d2) ++ ext) : d1 = d2 := by
  have h2 : (pre ++ enc1 ++ seg1 ++ ['_']) ++ (d1 ++ ext) =
      (pre ++ enc2 ++ seg2 ++ ['_']) ++ (d2 ++ ext) := by
    simpa [List.append_assoc] using h
  have hlen : (d1 ++ ext).length = (d2 ++ ext).length := by
    simp [hd]
  have h3 := (List.append_inj' h2 hlen).2
  exact (List.append_inj h3 (by simp [hd])).1

/-- Claim C4 counterexample: the pairs ("a", provider "b_c") and
("a_b", provider "c") differ, yet their digest inputs — and hence their
cache and metadata keys, whatever the digest — coincide, because target
and provider are joined with an underscore before hashing.  The digest
used here (`padDigest`) does not collide on these inputs: they are equal.
So distinct (target, provider) pairs can share a key without any digest
collision, refuting the claimed injectivity. -/
theorem cacheKey_collision_counterexample :
    cacheInput "a".data (some "b_c".data) = cacheInput "a_b".data (some "c".data) ∧
    ¬("a".data = "a_b".data ∧ "b_c".data = "c".data) ∧
    generateCacheKey padDigest "a".data (some "b_c".data) =
      generateCacheKey padDigest "a_b".data (some "c".data) ∧
    generateMetadataKey padDigest "a".data (some "b_c".data) =
      generateMetadataKey padDigest "a_b".data (some "c".data) := by
  refine ⟨by decide, by decide, by decide, by decide⟩

/-- Claim C4 (amended): key derivation is deterministic (it is a pure
function of its inputs), and it is injective up to digest collision only
under the additional proviso that provider names contain no underscore:
if the digest has the fixed output length 16 and does not collide on the
two derived inputs, and the provider names are underscore-free, then equal
cache (or metadata) keys force equal (target, provider) pairs.  Without
the underscore proviso the counterexample applies. -/
theorem cacheKey_injective_amended
    (digest : List Char → List Char)
    (hlen : ∀ s, (digest s).length = 16)
    (t1 t2 p1 p2 : List Char)
    (hp1 : '_' ∉ p1) (hp2 : '_' ∉ p2)
    (hnc : digest (cacheInput t1 (some p1)) = digest (cacheInput t2 (some p2)) →
      cacheInput t1 (some p1) = cacheInput t2 (some p2)) :
    (generateCacheKey digest t1 (some p1) = generateCacheKey digest t2 (some p2) →
      t1 = t2 ∧ p1 = p2) ∧
    (generateMetadataKey digest t1 (some p1) = generateMetadataKey digest t2 (some p2) →
      t1 = t2 ∧ p1 = p2) ∧
    generateCacheKey digest t1 (some p1) = generateCacheKey digest t1 (some p1) := by
  have hdl : (digest (cacheInput t1 (some p1))).length =
      (digest (cacheInput t2 (some p2))).length := by
    rw [hlen, hlen]
  have hmain : cacheInput t1 (some p1) = cacheInput t2 (some p2) →
      t1 = t2 ∧ p1 = p2 := by
    intro hci
    have : t1 ++ '_' :: p1 = t2 ++ '_' :: p2 := by
      simpa [cacheInput] using hci
    exact lastSepSplit hp1 hp2 this
  refine ⟨?_, ?_, rfl⟩
  · intro hkey
    exact hmain (hnc (keyHashEq hdl hkey))
  · intro hkey
    exact hmain (hnc (keyHashEq hdl hkey))

/-- Witness for the amended C4 theorem: its hypotheses are jointly
satisfiable (at `padDigest` and the pair ("target", "prov")) and the
theorem applies there. -/
theorem cacheKey_injective_amended_witness :
    (∀ s, (padDigest s).length = 16) ∧
    '_' ∉ "prov".data ∧
    ("target".data = "target".data ∧ "prov".data = "prov".data) :=
  ⟨padDigest_length, by decide,
    (cacheKey_injective_amended padDigest padDigest_length "target".data "target".data
      "prov".data "prov".data (by decide) (by decide) (fun _ => rfl)).1 rfl⟩
/-- Claim C8: `getCachedImage` returns a hit exactly when both existence
checks succeed, both `head` calls and both content fetches succeed (with
`ok` responses), and both body reads succeed; any missing object, failed
fetch, or thrown step yields `none`.  By construction the function
returns an `Option` — the surrounding `try/catch` means no error is ever
raised to the caller. -/
theorem getCachedImage_hit_characterization (env : CacheLookupEnv) :
    (getCachedImage env).isSome = true ↔
      (existsOf env.headImage1 = true ∧ existsOf env.headMeta1 = true ∧
       (∃ h, env.headImage2 = .ok h) ∧ (∃ h, env.headMeta2 = .ok h) ∧
       env.fetchImageOk = .ok true ∧ env.fetchMetaOk = .ok true ∧
       (∃ b, env.imageBody = .ok b) ∧ (∃ m, env.metaJson = .ok m)) := by
  obtain ⟨h1, h2, h3, h4, f1, f2, b1, m1⟩ := env
  cases h1 <;> cases h2 <;> cases h3 <;> cases h4 <;> cases f1 <;> cases f2 <;>
    cases b1 <;> cases m1 <;> simp [getCachedImage, existsOf]

/-- Witness for the C8 characterization at a concrete all-successful
lookup environment. -/
theorem getCachedImage_hit_characterization_witness :
    (getCachedImage lookupEnvAllOk).isSome = true :=
  (getCachedImage_hit_characterization lookupEnvAllOk).mpr
    ⟨rfl, rfl, ⟨_, rfl⟩, ⟨_, rfl⟩, rfl, rfl, ⟨_, rfl⟩, ⟨_, rfl⟩⟩

/-- Claim C10: `generateImagePromptFromHTML` is total and never empty —
a throwing model call or an empty/whitespace-only text yields the fixed
fallback prompt, and otherwise the trimmed text; in every case the result
is a non-empty string (the function's type is `String`, not an error
union: the `try/catch` swallows all failures). -/
theorem generateImagePrompt_total_nonempty (modelResult : Except String String) :
    generateImagePromptFromHTML modelResult ≠ "" ∧
    (∀ e, modelResult = .error e →
      generateImagePromptFromHTML modelResult = fallbackPrompt) ∧
    (∀ s, modelResult = .ok s → (s = "" ∨ s.trim = "") →
      generateImagePromptFromHTML modelResult = fallbackPrompt) ∧
    (∀ s, modelResult = .ok s → ¬(s = "" ∨ s.trim = "") →
      generateImagePromptFromHTML modelResult = s.trim) := by
  have hfb : fallbackPrompt ≠ "" := by decide
  cases modelResult with
  | error e =>
    refine ⟨hfb, fun _ _ => rfl, ?_, ?_⟩
    · intro s hs
      cases hs
    · intro s hs
      cases hs
  | ok text =>
    by_cases hcond : text = "" ∨ text.trim = ""
    · refine ⟨?_, ?_, ?_, ?_⟩
      · simp [generateImagePromptFromHTML, hcond, hfb]
      · intro e he
        cases he
      · intro s hs _
        simp [generateImagePromptFromHTML, hcond]
      · intro s hs hne
        cases hs
        exact absurd hcond hne
    · refine ⟨?_, ?_, ?_, ?_⟩
      · have htr : text.trim ≠ "" := fun h => hcond (Or.inr h)
        simpa [generateImagePromptFromHTML, hcond] using htr
      · intro e he
        cases he
      · intro s hs hc
        cases hs
        exact absurd hc hcond
      · intro s hs _
        cases hs
        simp [generateImagePromptFromHTML, hcond]

/-- Witness for C10 at the empty model result. -/
theorem generateImagePrompt_total_nonempty_witness :
    generateImagePromptFromHTML (Except.ok "") = fallbackPrompt ∧
    generateImagePromptFromHTML (Except.ok "") ≠ "" :=
  ⟨(generateImagePrompt_total_nonempty (Except.ok "")).2.2.1 "" rfl (Or.inl rfl),
   (generateImagePrompt_total_nonempty (Except.ok "")).1⟩

/-- If the second-revision stream loop yields nothing, `finalImageSent`
is never set and the generator ends in the wrapped hard error. -/
theorem genV2Go_empty_err (events : List OAIEvent) :
    ∀ finalSent : Bool, (genV2Go events finalSent).1 = [] →
      (genV2Go events finalSent).2 =
        if finalSent then none
        else some (wrapStreamErr "Stream ended without receiving final image") := by
  induction events with
  | nil =>
    intro finalSent _
    cases finalSent <;> simp [genV2Go]
  | cons e rest ih =>
    intro finalSent hempty
    by_cases hp : e.type = "image_generation.partial_image"
    · by_cases hb : truthyS e.b64Json = true
      · exact absurd hempty (by simp [genV2Go, hp, hb])
      · have hb2 : truthyS e.b64Json = false := by simpa using hb
        have : genV2Go (e :: rest) finalSent = genV2Go rest finalSent := by
          simp [genV2Go, hp, hb2]
        rw [this] at hempty ⊢
        exact ih finalSent hempty
    · by_cases hc : e.type = "image_generation.completed" ∨ truthyS e.b64Json = true
      · by_cases hb : truthyS e.b64Json = true
        · exact absurd hempty (by simp [genV2Go, hp, hc, hb])
        · have hb2 : truthyS e.b64Json = false := by simpa using hb
          have hc2 : e.type = "image_generation.completed" := by
            rcases hc with hc | hc
            · exact hc
            · exact absurd hc hb
          have : genV2Go (e :: rest) finalSent = genV2Go rest finalSent := by
            simp [genV2Go, hp, hc2, hb2]
          rw [this] at hempty ⊢
          exact ih finalSent hempty
      · push_neg at hc
        have : genV2Go (e :: rest) finalSent = genV2Go rest finalSent := by
          simp [genV2Go, hp, hc.1, hc.2]
        rw [this] at hempty ⊢
        exact ih finalSent hempty

/-- Claim C5: a second-revision `generateStream` run that yields no items
always terminates in the hard wrapped error "Stream ended without
receiving final image" — never a silent or empty success.  The thrown
error is an ordinary provider exception, which a fallback driver treats
as a provider failure. -/
theorem generateStreamV2_empty_hard_error (events : List OAIEvent)
    (h : (generateStreamV2 events).1 = []) :
    (generateStreamV2 events).2 =
      some (wrapStreamErr "Stream ended without receiving final image") := by
  have := genV2Go_empty_err events false h
  simpa [generateStreamV2] using this

/-- Witness for C5 at the empty upstream stream. -/
theorem generateStreamV2_empty_hard_error_witness :
    (generateStreamV2 []).1 = [] ∧
    (generateStreamV2 []).2 =
      some (wrapStreamErr "Stream ended without receiving final image") :=
  ⟨rfl, generateStreamV2_empty_hard_error [] rfl⟩
/-- One step of the provider loop on a failing head. -/
theorem tryProviders_cons_err (gen : String → Except String ImagePayload)
    (q : String) (e : String) (hgq : gen q = .error e)
    (L : List String) (le : Option String) :
    tryProviders gen (q :: L) le =
      (q :: (tryProviders gen L (some e)).1, (tryProviders gen L (some e)).2) := by
  simp [tryProviders, hgq]

/-- One step of the provider loop on a succeeding head. -/
theorem tryProviders_cons_ok (gen : String → Except String ImagePayload)
    (p : String) (r : ImagePayload) (hok : gen p = .ok r)
    (L : List String) (le : Option String) :
    tryProviders gen (p :: L) le = ([p], .ok (r, p)) := by
  simp [tryProviders, hok]

/-- The provider loop returns the first success immediately, whatever the
threaded last error, attempting exactly the failing leading providers and
the succeeding one. -/
theorem tryProviders_success (gen : String → Except String ImagePayload)
    (p : String) (r : ImagePayload) (hok : gen p = .ok r) :
    ∀ (pre : List String), (∀ q ∈ pre, genOk (gen q) = false) →
      ∀ (rest : List String) (le : Option String),
        tryProviders gen (pre ++ p :: rest) le = (pre ++ [p], .ok (r, p)) := by
  intro pre
  induction pre with
  | nil =>
    intro _ rest le
    simpa using tryProviders_cons_ok gen p r hok rest le
  | cons q pre2 ih =>
    intro hfail rest le
    have hq := hfail q (List.mem_cons_self q pre2)
    cases hgq : gen q with
    | ok rq => rw [hgq] at hq; simp [genOk] at hq
    | error eq2 =>
      rw [List.cons_append, tryProviders_cons_err gen q eq2 hgq,
        ih (fun x hx => hfail x (List.mem_cons_of_mem q hx)) rest (some eq2)]
      simp

/-- With every provider failing, the loop attempts the whole list and
surfaces the last provider's error. -/
theorem tryProviders_allFail (gen : String → Except String ImagePayload) :
    ∀ (providers : List String) (hne : providers ≠ []),
      (∀ q ∈ providers, genOk (gen q) = false) →
      ∀ le : Option String,
        tryProviders gen providers le =
          (providers, .error (errOf (gen (providers.getLast hne)))) := by
  intro providers
  induction providers with
  | nil => intro hne; exact absurd rfl hne
  | cons q rest ih =>
    intro _ hfail le
    have hq := hfail q (List.mem_cons_self q rest)
    cases hgq : gen q with
    | ok rq => rw [hgq] at hq; simp [genOk] at hq
    | error eq2 =>
      cases rest with
      | nil =>
        rw [tryProviders_cons_err gen q eq2 hgq]
        simp [tryProviders, errOf, hgq, List.getLast]
      | cons q2 rest2 =>
        have hne2 : q2 :: rest2 ≠ [] := by simp
        rw [tryProviders_cons_err gen q eq2 hgq,
          ih hne2 (fun x hx => hfail x (List.mem_cons_of_mem q hx)) (some eq2)]
        simp [List.getLast]

/-- Claim C6: the fallback loop of `SmartImageProvider.generate` tries
providers strictly in order, returns on the first success with the result
tagged by that provider's name (later providers are not attempted), and
when every provider fails it raises the last recorded failure. -/
theorem smart_fallback_order (gen : String → Except String ImagePayload) :
    (∀ (pre rest : List String) (p : String) (r : ImagePayload),
      (∀ q ∈ pre, genOk (gen q) = false) → gen p = .ok r →
      tryProviders gen (pre ++ p :: rest) none = (pre ++ [p], .ok (r, p))) ∧
    (∀ (providers : List String) (hne : providers ≠ []),
      (∀ q ∈ providers, genOk (gen q) = false) →
      tryProviders gen providers none =
        (providers, .error (errOf (gen (providers.getLast hne))))) :=
  ⟨fun pre rest p r hfail hok => tryProviders_success gen p r hok pre hfail rest none,
   fun providers hne hfail => tryProviders_allFail gen providers hne hfail none⟩

/-- Witness for C6: with `alpha` failing and `beta` succeeding, the chain
`[alpha, beta]` attempts both in order and succeeds tagged `beta`; the
chain `[alpha]` fails with `alpha`'s error. -/
theorem smart_fallback_order_witness :
    tryProviders genW ["alpha", "beta"] none =
      (["alpha", "beta"], .ok (⟨"img", "image/png", none⟩, "beta")) ∧
    tryProviders genW ["alpha"] none = (["alpha"], .error "alpha failed") := by
  constructor
  · have h := (smart_fallback_order genW).1 ["alpha"] [] "beta"
      ⟨"img", "image/png", none⟩ (by decide) rfl
    simpa using h
  · have h := (smart_fallback_order genW).2 ["alpha"] (by simp) (by decide)
    simpa using h

/-- Claim C7 counterexample: with the empty fallback chain and the
preference "gpt-image-1" (resolvable in the registry), the attempted
provider list is `[gpt-image-1]` — the preferred provider sits at
position 0 although it is not in the original chain, and the attempted
list does not consist of the chain's providers. -/
theorem reorder_preference_counterexample :
    (smartGenerate genFail [] (some "gpt-image-1")).1 = ["gpt-image-1"] ∧
    "gpt-image-1" ∉ ([] : List String) ∧
    (smartGenerate genFail [] (some "gpt-image-1")).1 ≠ [] := by
  refine ⟨by decide, by decide, by decide⟩

/-- Claim C7 (amended): when the preference resolves in the registry, the
resolved provider is always placed at position 0 — whether or not it is in
the chain — and the rest of the attempted list is the original chain with
that provider filtered out, relative order preserved; without a preference
the chain is unchanged. -/
theorem reorder_preference_amended (chain : List String) (m p : String)
    (hp : getProviderName m = .ok p) :
    reorderProviders chain (some m) = .ok (p :: chain.filter (fun q => q ≠ p)) ∧
    (chain.filter (fun q => q ≠ p)).Sublist chain ∧
    p ∉ chain.filter (fun q => q ≠ p) ∧
    (∀ q ∈ chain, q ≠ p → q ∈ chain.filter (fun q => q ≠ p)) ∧
    reorderProviders chain none = .ok chain := by
  refine ⟨by simp [reorderProviders, hp], List.filter_sublist chain, ?_, ?_, rfl⟩
  · intro hmem
    have := List.of_mem_filter hmem
    simp at this
  · intro q hq hne
    exact List.mem_filter.mpr ⟨hq, by simpa using hne⟩

/-- Witness for the amended C7 theorem at the registry's only model
name. -/
theorem reorder_preference_amended_witness :
    reorderProviders ["gpt-image-1"] (some "gpt-image-1") = .ok ["gpt-image-1"] := by
  have h := (reorder_preference_amended ["gpt-image-1"] "gpt-image-1" "gpt-image-1" rfl).1
  simpa using h
/-- With no cancellation, no stream error and only partial items, the
stream loop emits one `partial_image` event per item, then the
artifact-less `completed` fallback, then the sentinel. -/
theorem streamLoop_allPartial (env : RouteEnv) (hcan : ∀ n, env.cancel n = false)
    (herr : env.streamErr = none) :
    ∀ (items : List ImageGenerationResult), (∀ it ∈ items, it.isPartial = true) →
      ∀ (i : Nat) (obs : Bool),
        streamLoop env i obs false items =
          (items.map fun it => (Act.ev (Step.partialImage it.partialIndex it.payload), obs)) ++
            [(Act.ev (Step.completed none false), obs), (Act.ev Step.done, obs)] := by
  intro items
  induction items with
  | nil =>
    intro _ i obs
    simp [streamLoop, herr]
  | cons it rest ih =>
    intro hall i obs
    have hp := hall it (List.mem_cons_self it rest)
    simp [streamLoop, hcan i, hp,
      ih (fun x hx => hall x (List.mem_cons_of_mem it hx)) (i + 1) obs]

/-- Claim C1: on a cache hit with no cancellation, the streaming route
emits exactly the `checking_cache` event, the `completed` event carrying
the cached artifact (flagged `cached`), and the `[DONE]` sentinel — and
never invokes the validator, the fetcher, the describer, or a provider. -/
theorem route_cache_short_circuit (env : RouteEnv) (c : CachedImageResult)
    (hc : env.cached = some c) (hcan : ∀ n, env.cancel n = false) :
    routePOST env = [Act.ev Step.checkingCache, Act.callCache,
      Act.ev (Step.completed (some c.payload) true), Act.ev Step.done] ∧
    ∀ a ∈ routePOST env, a ≠ Act.callValidate ∧ a ≠ Act.callFetch ∧
      (∀ h, a ≠ Act.callDescribe h) ∧ (∀ p, a ≠ Act.callProviderStream p) := by
  have htr : routePOST env = [Act.ev Step.checkingCache, Act.callCache,
      Act.ev (Step.completed (some c.payload) true), Act.ev Step.done] := by
    simp [routePOST, routeTrace, hc, hcan]
  refine ⟨htr, ?_⟩
  intro a ha
  rw [htr] at ha
  fin_cases ha <;> refine ⟨by simp, by simp, fun h => by simp, fun p => by simp⟩

/-- Witness for C1 at a concrete cache-hit run. -/
theorem route_cache_short_circuit_witness :
    envHit.cached = some sampleCached ∧ (∀ n, envHit.cancel n = false) ∧
    routePOST envHit = [Act.ev Step.checkingCache, Act.callCache,
      Act.ev (Step.completed (some sampleCached.payload) true), Act.ev Step.done] :=
  ⟨rfl, fun _ => rfl,
    (route_cache_short_circuit envHit sampleCached rfl (fun _ => rfl)).1⟩

/-- Claim C2 counterexample: with the describe model returning the empty
string on a cache-miss run, the route emits no `error` event at all and
the provider is invoked — the claimed terminal error before provider
invocation does not happen (the empty result is silently replaced by the
fallback description). -/
theorem route_empty_describe_counterexample :
    envEmptyDescribe.describeModel = Except.ok "" ∧
    hasError (routePOST envEmptyDescribe) = false ∧
    (routePOST envEmptyDescribe).any isCallProvider = true := by
  refine ⟨rfl, by decide, by decide⟩

/-- Claim C2 (amended): an empty (or throwing) describe-model result is
replaced by the fixed non-empty fallback description; the route emits no
`error` event before the provider invocation and proceeds to invoke the
provider with the fallback-derived prompt. -/
theorem route_empty_describe_fallback (env : RouteEnv) (v : ValidationResult)
    (h s : String)
    (hcache : env.cached = none) (hval : env.validation = .ok v)
    (hvalid : v.isValid = true) (hfetch : env.fetchRes = .ok h)
    (hdesc : env.describeModel = .ok s) (hempty : s = "" ∨ s.trim = "")
    (hcan : ∀ n, env.cancel n = false) :
    Act.callProviderStream (describePrompt fallbackPrompt) ∈ routePOST env ∧
    errorBeforeProvider (routePOST env) = false := by
  have hprompt : generateImagePromptFromHTML env.describeModel = fallbackPrompt := by
    rw [hdesc]
    simp [generateImagePromptFromHTML, hempty]
  have htr : routePOST env =
      Act.ev Step.checkingCache :: Act.callCache :: Act.ev Step.validating ::
      Act.callValidate :: Act.ev (Step.validated (v.category = "potentially_unsafe")) ::
      Act.ev Step.fetching :: Act.callFetch :: Act.ev Step.fetched ::
      Act.ev Step.describing :: Act.callDescribe h :: Act.ev Step.described ::
      Act.ev Step.generating ::
      Act.callProviderStream (describePrompt fallbackPrompt) ::
      (streamLoop env 5 false false env.streamItems).map Prod.fst := by
    simp [routePOST, routeTrace, missPath, hcache, hval, hvalid, hfetch, hcan, hprompt]
  constructor
  · rw [htr]
    simp
  · rw [errorBeforeProvider, htr]
    simp [hasError, isErrorEv, isCallProvider, List.takeWhile]

/-- Witness for the amended C2 theorem at a concrete empty-describe
run. -/
theorem route_empty_describe_fallback_witness :
    Act.callProviderStream (describePrompt fallbackPrompt) ∈ routePOST envEmptyDescribe ∧
    errorBeforeProvider (routePOST envEmptyDescribe) = false :=
  route_empty_describe_fallback envEmptyDescribe okValidation "<html></html>" ""
    rfl rfl rfl rfl rfl (Or.inl rfl) (fun _ => rfl)
/-- Claim C3 counterexample: on a run whose provider stream yields the
partials at indices 0 and 1 and then ends without a final item, the route
emits a `completed` event carrying no artifact — not one whose artifact
equals partial index 1's artifact. -/
theorem route_partial_promotion_counterexample :
    (∀ it ∈ envPartialsOnly.streamItems, it.isPartial = true) ∧
    envPartialsOnly.streamErr = none ∧
    Act.ev (Step.completed none false) ∈ routePOST envPartialsOnly ∧
    Act.ev (Step.completed (some partialItem1.payload) false) ∉ routePOST envPartialsOnly := by
  refine ⟨by decide, rfl, by decide, by decide⟩

/-- First-revision `generateStream` promotion: on an upstream stream of
data-carrying partial events ended by a completion event without image
data, the generator yields the partial items and then the last of them
with only `isPartial` flipped, independent of the `lastPartialImage`
accumulator it starts from. -/
theorem genV1Go_promotes (fetchImg : String → Except String String) :
    ∀ (ps : List (Nat × String)) (q : Nat × String),
      q.2.isEmpty = false → (∀ x ∈ ps, x.2.isEmpty = false) →
      ∀ acc, genV1Go fetchImg
          ((q :: ps).map (fun x => mkPartialEv x.1 x.2) ++ [completedNoData]) acc =
        ((q :: ps).map partialItemOf ++
          [promotedItemOf ((q :: ps).getLast (by simp))], none) := by
  intro ps
  induction ps with
  | nil =>
    intro q hq _ acc
    simp [genV1Go, mkPartialEv, completedNoData, truthyS, hq, OAIEvent.asData,
      partialItemOf, promotedItemOf]
  | cons x rest ih =>
    intro q hq hall acc
    have hx := hall x (List.mem_cons_self x rest)
    have h1 : genV1Go fetchImg
        ((q :: x :: rest).map (fun y => mkPartialEv y.1 y.2) ++ [completedNoData]) acc =
        (partialItemOf q ::
          (genV1Go fetchImg ((x :: rest).map (fun y => mkPartialEv y.1 y.2) ++
            [completedNoData]) (some (partialItemOf q))).1,
         (genV1Go fetchImg ((x :: rest).map (fun y => mkPartialEv y.1 y.2) ++
            [completedNoData]) (some (partialItemOf q))).2) := by
      simp [genV1Go, mkPartialEv, truthyS, hq, partialItemOf]
    rw [h1, ih x hx (fun y hy => hall y (List.mem_cons_of_mem x hy)) (some (partialItemOf q))]
    simp [List.getLast_cons]

/-- Claim C3 (amended): when the provider's sequence yields only partials
and ends without a final item, the orchestrator's `completed` event
carries no artifact at all; the artifact-preserving promotion (artifact
unchanged, `isPartial` flipped) happens one layer down, inside the
first-revision `generateStream`, when the upstream stream signals
completion without image data. -/
theorem partial_promotion_amended (env : RouteEnv) (v : ValidationResult) (h : String)
    (hcache : env.cached = none) (hval : env.validation = .ok v)
    (hvalid : v.isValid = true) (hfetch : env.fetchRes = .ok h)
    (hcan : ∀ n, env.cancel n = false)
    (hall : ∀ it ∈ env.streamItems, it.isPartial = true)
    (herr : env.streamErr = none) :
    (Act.ev (Step.completed none false) ∈ routePOST env ∧
     ∀ pay : ImagePayload, Act.ev (Step.completed (some pay) false) ∉ routePOST env) ∧
    (∀ (fetchImg : String → Except String String) (q : Nat × String)
        (ps : List (Nat × String)),
      q.2.isEmpty = false → (∀ x ∈ ps, x.2.isEmpty = false) →
      generateStreamV1 fetchImg
          ((q :: ps).map (fun x => mkPartialEv x.1 x.2) ++ [completedNoData]) =
        ((q :: ps).map partialItemOf ++
          [promotedItemOf ((q :: ps).getLast (by simp))], none)) := by
  have htr : routePOST env =
      Act.ev Step.checkingCache :: Act.callCache :: Act.ev Step.validating ::
      Act.callValidate :: Act.ev (Step.validated (v.category = "potentially_unsafe")) ::
      Act.ev Step.fetching :: Act.callFetch :: Act.ev Step.fetched ::
      Act.ev Step.describing :: Act.callDescribe h :: Act.ev Step.described ::
      Act.ev Step.generating ::
      Act.callProviderStream (describePrompt (generateImagePromptFromHTML env.describeModel)) ::
      ((env.streamItems.map fun it =>
          Act.ev (Step.partialImage it.partialIndex it.payload)) ++
        [Act.ev (Step.completed none false), Act.ev Step.done]) := by
    rw [routePOST, routeTrace]
    simp [missPath, hcache, hval, hvalid, hfetch, hcan,
      streamLoop_allPartial env hcan herr env.streamItems hall 5 false]
  refine ⟨⟨?_, ?_⟩, ?_⟩
  · rw [htr]
    simp
  · intro pay
    rw [htr]
    simp
  · intro fetchImg q ps hq hps
    exact genV1Go_promotes fetchImg ps q hq hps none

/-- Witness for the amended C3 theorem: the concrete partials-only run
and a concrete two-partial upstream stream. -/
theorem partial_promotion_amended_witness :
    Act.ev (Step.completed none false) ∈ routePOST envPartialsOnly ∧
    generateStreamV1 (fun _ => Except.error "no fetch")
        [mkPartialEv 0 "pa", mkPartialEv 1 "pb", completedNoData] =
      ([partialItemOf (0, "pa"), partialItemOf (1, "pb"), promotedItemOf (1, "pb")], none) := by
  have H := partial_promotion_amended envPartialsOnly okValidation "<html></html>"
    rfl rfl rfl rfl (fun _ => rfl) (by decide) rfl
  refine ⟨H.1.1, ?_⟩
  have h2 := H.2 (fun _ => Except.error "no fetch") (0, "pa") [(1, "pb")] rfl (by decide)
  simpa using h2
/-- Every element the stream loop emits carries the observation tag it
was entered with (an observed cancellation inside the loop emits
nothing). -/
theorem streamLoop_tags (env : RouteEnv) :
    ∀ (items : List ImageGenerationResult) (i : Nat) (obs finalSent : Bool),
      ∀ p ∈ streamLoop env i obs finalSent items, p.2 = obs := by
  intro items
  induction items with
  | nil =>
    intro i obs fs p hp
    simp only [streamLoop] at hp
    cases henv : env.streamErr with
    | some msg =>
      rw [henv] at hp
      simp at hp
      simp [hp]
    | none =>
      rw [henv] at hp
      cases fs with
      | true =>
        simp at hp
        simp [hp]
      | false =>
        simp at hp
        rcases hp with hp | hp <;> simp [hp]
  | cons it rest ih =>
    intro i obs fs p hp
    simp only [streamLoop] at hp
    by_cases hc : env.cancel i = true
    · simp [hc] at hp
    · simp only [hc, Bool.false_eq_true, if_false] at hp
      by_cases hpi : it.isPartial = true
      · rw [if_pos hpi] at hp
        rcases List.mem_cons.mp hp with rfl | hp
        · rfl
        · exact ih (i + 1) obs fs p hp
      · rw [if_neg hpi] at hp
        rcases List.mem_cons.mp hp with rfl | hp
        · rfl
        rcases List.mem_cons.mp hp with rfl | hp
        · rfl
        · exact ih (i + 1) obs true p hp

/-- Every element the cache-miss pipeline emits carries the observation
tag it was entered with. -/
theorem missPath_tags (env : RouteEnv) (obs : Bool) :
    ∀ p ∈ missPath env obs, p.2 = obs := by
  intro p hp
  rw [missPath] at hp
  rcases List.mem_cons.mp hp with rfl | hp
  · rfl
  rcases List.mem_cons.mp hp with rfl | hp
  · rfl
  split at hp
  · simp at hp
    simp [hp]
  · split at hp
    · simp at hp
    · split at hp
      · simp at hp
        simp [hp]
      · rcases List.mem_cons.mp hp with rfl | hp
        · rfl
        rcases List.mem_cons.mp hp with rfl | hp
        · rfl
        rcases List.mem_cons.mp hp with rfl | hp
        · rfl
        split at hp
        · simp at hp
          simp [hp]
        · split at hp
          · simp at hp
          · rcases List.mem_cons.mp hp with rfl | hp
            · rfl
            rcases List.mem_cons.mp hp with rfl | hp
            · rfl
            rcases List.mem_cons.mp hp with rfl | hp
            · rfl
            split at hp
            · simp at hp
            · rcases List.mem_cons.mp hp with rfl | hp
              · rfl
              rcases List.mem_cons.mp hp with rfl | hp
              · rfl
              rcases List.mem_cons.mp hp with rfl | hp
              · rfl
              exact streamLoop_tags env env.streamItems 5 obs false p hp

/-- Claim C9 counterexample: on a run with a cache hit whose client
cancels between the first check and the hit guard (a monotone cancel
flag), the route observes the cancellation at the hit guard, falls
through to the miss path, and still emits the `validating` event — an
event emitted after cancellation was observed. -/
theorem route_cancel_event_after_observation :
    (∀ m n : Nat, m ≤ n → envCancelledHit.cancel m = true →
      envCancelledHit.cancel n = true) ∧
    (Act.ev Step.validating, true) ∈ routeTrace envCancelledHit := by
  constructor
  · intro m n hmn hm
    exact decide_eq_true (le_trans (of_decide_eq_true hm) hmn)
  · decide

/-- Claim C9 (amended): for a monotone cancellation flag, the only trace
elements emitted after cancellation has been observed are the
`validating` event, the validator invocation, and — when the validator
throws — its `error` event: they arise from the cancelled-cache-hit
fallthrough, which runs the validating stage before the next check
closes the stream.  At every other check, observation emits nothing
further. -/
theorem route_cancellation_silence_amended (env : RouteEnv)
    (hmono : ∀ m n : Nat, m ≤ n → env.cancel m = true → env.cancel n = true) :
    ∀ p ∈ routeTrace env, p.2 = true →
      p.1 = Act.ev Step.validating ∨ p.1 = Act.callValidate ∨
        ∃ msg, p.1 = Act.ev (Step.error msg) := by
  intro p hp htag
  rw [routeTrace] at hp
  split at hp
  · simp at hp
  · rcases List.mem_cons.mp hp with rfl | hp
    · simp at htag
    rcases List.mem_cons.mp hp with rfl | hp
    · simp at htag
    split at hp
    · rename_i c heq
      split at hp
      · rename_i hc1
        have hc2 : env.cancel 2 = true := hmono 1 2 (by omega) hc1
        rw [missPath] at hp
        rcases List.mem_cons.mp hp with rfl | hp
        · exact Or.inl rfl
        rcases List.mem_cons.mp hp with rfl | hp
        · exact Or.inr (Or.inl rfl)
        split at hp
        · rename_i msg hmsg
          simp at hp
          exact Or.inr (Or.inr ⟨msg, by rw [hp]⟩)
        · rw [if_pos hc2] at hp
          simp at hp
      · simp at hp
        rcases hp with hp | hp <;> rw [hp] at htag <;> simp at htag
    · have := missPath_tags env false p hp
      rw [this] at htag
      simp at htag

/-- Witness for the amended C9 theorem at the cancelled cache-hit run,
applied to the `validating` event it emits after observation. -/
theorem route_cancellation_silence_amended_witness :
    Act.ev Step.validating = Act.ev Step.validating ∨
      Act.ev Step.validating = Act.callValidate ∨
      ∃ msg, Act.ev Step.validating = Act.ev (Step.error msg) :=
  route_cancellation_silence_amended envCancelledHit
    (fun m n hmn hm => decide_eq_true (le_trans (of_decide_eq_true hm) hmn))
    (Act.ev Step.validating, true) (by decide) rfl
